import Mathlib

/-!
Verification of the Medical Equipment Maintenance Management System
(`medical_maintenance_system.py`) against its natural-language
specification.

The program stores its record set as a pandas DataFrame; we embed a row as
the structure `DeviceRecord` and the DataFrame as a `List DeviceRecord`.
Timestamps (`pd.Timestamp`) are nanosecond counts since the epoch, embedded
as `Int`; `pd.Timedelta.days` is floor division of the nanosecond
difference by the nanoseconds in a day (pandas `Timedelta` subclasses
Python `timedelta`, whose `days` component floors toward negative
infinity), embedded with `Int.fdiv`.  The transient DataFrame columns
`Center_Code` / `Center_Name` are derived from `Asset ID`; we embed them as
the function `center_code_of` rather than as stored fields, so the
persisted columns are exactly the fields of `DeviceRecord`.
-/

namespace MedMaint

/-- Nanoseconds in one day: the unit conversion behind `pd.Timedelta.days`
and `timedelta(days = n)`. -/
def nsPerDay : Int := 86400000000000

/-- One row of the device DataFrame, with exactly the persisted columns.
`Installation Date`, `Last_Maintenance`, `Next_Maintenance` cells can be
`NaT` and the `Notes` cell can be `NaN`, embedded as `none`. -/
structure DeviceRecord where
  asset_id : String
  department : String
  equipment_name : String
  manufacturer : String
  model : String
  serial_no : String
  installation_date : Option Int
  last_maintenance : Option Int
  next_maintenance : Option Int
  maintenance_interval_days : Int
  device_status : String
  priority : String
  notes : Option String
  deriving Repr, DecidableEq, Inhabited

/-- Embeds `calculate_maintenance_status(row)` (lines 130-146).  The Python
function reads the clock itself (`today = pd.Timestamp.now()`); here the
reference timestamp is the explicit parameter `today`.  Returns the
`(label, icon)` pair exactly as the source does: "غير محدد" = Undetermined,
"متأخر" = Overdue, "عاجل" = Urgent, "قريب" = Upcoming, "جيد" = Good. -/
def calculate_maintenance_status (row : DeviceRecord) (today : Int) :
    String × String :=
  match row.next_maintenance with
  | none => ("غير محدد", "⚪")
  | some nm =>
    let days_until := Int.fdiv (nm - today) nsPerDay
    if days_until < 0 then ("متأخر", "🔴")
    else if days_until ≤ 7 then ("عاجل", "🟠")
    else if days_until ≤ 30 then ("قريب", "🟡")
    else ("جيد", "🟢")

/-- Helper: the evaluator on a record with a due date, by case on
`days_until`. -/
theorem calc_status_some (row : DeviceRecord) (today nm : Int)
    (h : row.next_maintenance = some nm) :
    calculate_maintenance_status row today =
      (let d := Int.fdiv (nm - today) nsPerDay
       if d < 0 then ("متأخر", "🔴")
       else if d ≤ 7 then ("عاجل", "🟠")
       else if d ≤ 30 then ("قريب", "🟡")
       else ("جيد", "🟢")) := by
  simp [calculate_maintenance_status, h]

/-- C1: the evaluator is total over the five labels: `none` ↦ Undetermined,
and for a present due date, with `days_until = fdiv (nm - today) 1day`,
the four integer ranges `<0`, `[0,7]`, `[8,30]`, `>30` map to Overdue,
Urgent, Upcoming, Good respectively — each iff, so exactly one label
applies. -/
theorem calculate_maintenance_status_classification
    (row : DeviceRecord) (today : Int) :
    (row.next_maintenance = none →
      (calculate_maintenance_status row today).1 = "غير محدد") ∧
    (∀ nm : Int, row.next_maintenance = some nm →
      ((Int.fdiv (nm - today) nsPerDay < 0 ↔
          (calculate_maintenance_status row today).1 = "متأخر") ∧
       ((0 ≤ Int.fdiv (nm - today) nsPerDay ∧
           Int.fdiv (nm - today) nsPerDay ≤ 7) ↔
          (calculate_maintenance_status row today).1 = "عاجل") ∧
       ((8 ≤ Int.fdiv (nm - today) nsPerDay ∧
           Int.fdiv (nm - today) nsPerDay ≤ 30) ↔
          (calculate_maintenance_status row today).1 = "قريب") ∧
       (30 < Int.fdiv (nm - today) nsPerDay ↔
          (calculate_maintenance_status row today).1 = "جيد"))) := by
  constructor
  · intro h
    simp [calculate_maintenance_status, h]
  · intro nm h
    rw [calc_status_some row today nm h]
    set d := Int.fdiv (nm - today) nsPerDay with hd
    by_cases h1 : d < 0
    · simp only [if_pos h1]
      refine ⟨by simp [h1], ?_, ?_, ?_⟩ <;>
        constructor <;> intro hx <;> first
          | omega
          | (exfalso; revert hx; decide)
    · simp only [if_neg h1]
      by_cases h2 : d ≤ 7
      · simp only [if_pos h2]
        refine ⟨?_, by simp; omega, ?_, ?_⟩ <;>
          constructor <;> intro hx <;> first
            | omega
            | (exfalso; revert hx; decide)
      · simp only [if_neg h2]
        by_cases h3 : d ≤ 30
        · simp only [if_pos h3]
          refine ⟨?_, ?_, by simp; omega, ?_⟩ <;>
            constructor <;> intro hx <;> first
              | omega
              | (exfalso; revert hx; decide)
        · simp only [if_neg h3]
          refine ⟨?_, ?_, ?_, by simp; omega⟩ <;>
            constructor <;> intro hx <;> first
              | omega
              | (exfalso; revert hx; decide)

/-- Concrete record used by several witnesses: a working device with no due
date recorded. -/
def sampleRecord : DeviceRecord :=
  { asset_id := "KHL-PHC-001"
    department := "مختبر"
    equipment_name := "جهاز تحليل"
    manufacturer := "ACME"
    model := "X1"
    serial_no := "SN-1"
    installation_date := none
    last_maintenance := none
    next_maintenance := none
    maintenance_interval_days := 90
    device_status := "عامل"
    priority := "متوسط"
    notes := none }

/-- Witness for C1 at a concrete overdue record: due one day before `now`. -/
theorem calculate_maintenance_status_classification_witness :
    (calculate_maintenance_status
        { sampleRecord with next_maintenance := some (-nsPerDay) } 0).1 =
      "متأخر" :=
  ((calculate_maintenance_status_classification
      { sampleRecord with next_maintenance := some (-nsPerDay) } 0).2
      (-nsPerDay) rfl).1.mp (by decide)

/-- Embeds `df.apply(lambda row: calculate_maintenance_status(row)..., axis=1)`
as used by the dashboard, search export and schedule views: every row is
annotated with its computed status, the rows themselves untouched. -/
def annotate_with_status (rows : List DeviceRecord) (today : Int) :
    List (DeviceRecord × (String × String)) :=
  rows.map (fun r => (r, calculate_maintenance_status r today))

/-- C2: the evaluator is a pure function of `(record, now)`: equal inputs
give equal `(label, icon)` results, and annotating a whole record set
leaves every record exactly as it was (no mutation). -/
theorem calculate_maintenance_status_pure :
    (∀ (r₁ r₂ : DeviceRecord) (t₁ t₂ : Int), r₁ = r₂ → t₁ = t₂ →
      calculate_maintenance_status r₁ t₁ = calculate_maintenance_status r₂ t₂) ∧
    (∀ (rows : List DeviceRecord) (today : Int),
      (annotate_with_status rows today).map Prod.fst = rows ∧
      annotate_with_status rows today = annotate_with_status rows today) := by
  refine ⟨fun r₁ r₂ t₁ t₂ hr ht => by rw [hr, ht], fun rows today => ⟨?_, rfl⟩⟩
  simp only [annotate_with_status, List.map_map]
  exact List.map_id rows

/-- Witness for C2 at a concrete record and timestamp. -/
theorem calculate_maintenance_status_pure_witness :
    calculate_maintenance_status sampleRecord 0 =
      calculate_maintenance_status sampleRecord 0 :=
  calculate_maintenance_status_pure.1 sampleRecord sampleRecord 0 0 rfl rfl

/-- Embeds the maintenance-log update of one row (lines 736-744): set
`Last_Maintenance` to the maintenance date, `Next_Maintenance` to
`date + timedelta(days = interval)`, `Device_Status` to the after-state,
`Maintenance_Interval_Days` to the chosen interval, and append a
timestamped line to `Notes` (a `NaN` cell reads as the empty string). -/
def log_maintenance (device : DeviceRecord) (maintenance_date : Int)
    (maintenance_type technician maintenance_notes : String)
    (device_status_after : String) (next_maintenance_interval : Int) :
    DeviceRecord :=
  let current_notes := device.notes.getD ""
  { device with
    last_maintenance := some maintenance_date
    next_maintenance :=
      some (maintenance_date + next_maintenance_interval * nsPerDay)
    device_status := device_status_after
    maintenance_interval_days := next_maintenance_interval
    notes := some (current_notes ++ "\n[" ++ toString maintenance_date ++ "] "
      ++ maintenance_type ++ " - " ++ technician ++ ": " ++ maintenance_notes) }

/-- C3: logging maintenance on date `D` with interval `I` sets
`last_maintenance = D` and `next_maintenance = D + I` days exactly, and the
evaluator at `now = D` then answers Upcoming ("قريب") when `8 ≤ I ≤ 30` and
Good ("جيد") when `I > 30`. -/
theorem log_maintenance_round_trip (device : DeviceRecord) (D I : Int)
    (mtype tech mnotes dstatus : String) :
    (log_maintenance device D mtype tech mnotes dstatus I).last_maintenance =
      some D ∧
    (log_maintenance device D mtype tech mnotes dstatus I).next_maintenance =
      some (D + I * nsPerDay) ∧
    (8 ≤ I → I ≤ 30 →
      (calculate_maintenance_status
        (log_maintenance device D mtype tech mnotes dstatus I) D).1 = "قريب") ∧
    (30 < I →
      (calculate_maintenance_status
        (log_maintenance device D mtype tech mnotes dstatus I) D).1 = "جيد") := by
  have hnext : (log_maintenance device D mtype tech mnotes dstatus I).next_maintenance
      = some (D + I * nsPerDay) := rfl
  have hdays : Int.fdiv (D + I * nsPerDay - D) nsPerDay = I := by
    have hns : (nsPerDay : Int) ≠ 0 := by decide
    have : D + I * nsPerDay - D = I * nsPerDay := by ring
    rw [this, Int.mul_fdiv_cancel _ hns]
  refine ⟨rfl, rfl, ?_, ?_⟩
  · intro h8 h30
    rw [calc_status_some _ D _ hnext]
    simp only [hdays]
    rw [if_neg (by omega), if_neg (by omega), if_pos h30]
  · intro h30
    rw [calc_status_some _ D _ hnext]
    simp only [hdays]
    rw [if_neg (by omega), if_neg (by omega), if_neg (by omega)]

/-- Witness for C3 at `D = 0` with intervals 20 (Upcoming) and 100 (Good). -/
theorem log_maintenance_round_trip_witness :
    (calculate_maintenance_status
      (log_maintenance sampleRecord 0 "صيانة دورية" "فني" "" "عامل" 20) 0).1 =
      "قريب" ∧
    (calculate_maintenance_status
      (log_maintenance sampleRecord 0 "صيانة دورية" "فني" "" "عامل" 100) 0).1 =
      "جيد" :=
  ⟨(log_maintenance_round_trip sampleRecord 0 20 "صيانة دورية" "فني" "" "عامل").2.2.1
      (by decide) (by decide),
   (log_maintenance_round_trip sampleRecord 0 100 "صيانة دورية" "فني" "" "عامل").2.2.2
      (by decide)⟩

/-- Embeds the per-row effect of the bulk interval update (lines 1010-1018):
`df.loc[mask, 'Maintenance_Interval_Days'] = new_interval` sets the
interval on every row whose `Scientific Equipment Name` matches, then the
loop recomputes `Next_Maintenance = Last_Maintenance + timedelta(days =
new_interval)` for the matching rows whose `Last_Maintenance` is not `NaT`.
Rows outside the mask are untouched. -/
def apply_interval_row (selected_equipment : String) (new_interval : Int)
    (r : DeviceRecord) : DeviceRecord :=
  if r.equipment_name == selected_equipment then
    let r1 := { r with maintenance_interval_days := new_interval }
    match r1.last_maintenance with
    | some last_maint =>
        { r1 with next_maintenance := some (last_maint + new_interval * nsPerDay) }
    | none => r1
  else r

/-- Embeds the whole bulk interval update over the record set: the mask and
the recomputation loop act row by row and independently, so the update is
the row effect mapped over the DataFrame. -/
def apply_interval_to_type (df : List DeviceRecord)
    (selected_equipment : String) (new_interval : Int) : List DeviceRecord :=
  df.map (apply_interval_row selected_equipment new_interval)

/-- Concrete record for the C4 counterexample: a freshly added device of
type "X" whose `next_maintenance` was seeded from its installation date, so
it has a due date but no `last_maintenance` yet. -/
def c4Record : DeviceRecord :=
  { sampleRecord with
    equipment_name := "X"
    installation_date := some 0
    last_maintenance := none
    next_maintenance := some (90 * nsPerDay) }

/-- C4 counterexample: the claim says a matching record with no
`last_maintenance` "is left with next_maintenance absent", but the code
leaves its `next_maintenance` unchanged, and that value can be present:
here a matching record with `last_maintenance = none` keeps its seeded due
date `some (90 days)` after the bulk update — it is not absent. -/
theorem apply_interval_claimed_absence_false :
    c4Record.equipment_name = "X" ∧
    c4Record.last_maintenance = none ∧
    ((apply_interval_to_type [c4Record] "X" 30).getD 0 default).next_maintenance
      = some (90 * nsPerDay) ∧
    ((apply_interval_to_type [c4Record] "X" 30).getD 0 default).next_maintenance
      ≠ none := by
  refine ⟨rfl, rfl, rfl, ?_⟩
  decide

/-- C4 amended: under a bulk update of equipment type `sel` to interval `N`,
a matching record with a `last_maintenance` gets `next_maintenance`
recomputed to `last_maintenance + N` days (and its interval set to `N`); a
matching record with no `last_maintenance` only gets its interval set to
`N`, its `next_maintenance` left unchanged (absent or not); a record of any
other equipment type is completely unchanged; and the update touches no
other row: it maps the row effect positionally over the set. -/
theorem apply_interval_to_type_amended (df : List DeviceRecord)
    (sel : String) (N : Int) :
    (apply_interval_to_type df sel N).length = df.length ∧
    (∀ i : Nat, i < df.length →
        (apply_interval_to_type df sel N).getD i default =
          apply_interval_row sel N (df.getD i default)) ∧
    (∀ r : DeviceRecord, r.equipment_name = sel →
      (∀ lm : Int, r.last_maintenance = some lm →
        apply_interval_row sel N r =
          { r with maintenance_interval_days := N
                   next_maintenance := some (lm + N * nsPerDay) }) ∧
      (r.last_maintenance = none →
        apply_interval_row sel N r =
          { r with maintenance_interval_days := N })) ∧
    (∀ r : DeviceRecord, r.equipment_name ≠ sel →
      apply_interval_row sel N r = r) := by
  refine ⟨by simp [apply_interval_to_type], ?_, ?_, ?_⟩
  · intro i hi
    rw [apply_interval_to_type, List.getD_eq_getElem?_getD,
      List.getElem?_map, List.getD_eq_getElem?_getD]
    cases hx : df[i]? with
    | none => simp [List.getElem?_eq_none_iff] at hx; omega
    | some v => simp [hx]
  · intro r hsel
    constructor
    · intro lm hlm
      simp [apply_interval_row, hsel, hlm]
    · intro hlm
      simp [apply_interval_row, hsel, hlm]
  · intro r hsel
    simp [apply_interval_row, hsel]

/-- Witness for C4's amended theorem: the frame holds concretely — a record
of another type is unchanged, and the counterexample record keeps its due
date while its interval becomes 30. -/
theorem apply_interval_to_type_amended_witness :
    apply_interval_row "X" 30 sampleRecord = sampleRecord ∧
    apply_interval_row "X" 30 c4Record =
      { c4Record with maintenance_interval_days := 30 } :=
  ⟨(apply_interval_to_type_amended [] "X" 30).2.2.2 sampleRecord (by decide),
   ((apply_interval_to_type_amended [] "X" 30).2.2.1 c4Record rfl).2 rfl⟩

/-- Embeds Python `s.split('-')` on the character list: split at every
dash, keeping empty pieces, so `"".split('-') = [""]` and
`"a--b".split('-') = ["a", "", "b"]`. -/
def split_on_dash_chars : List Char → List (List Char)
  | [] => [[]]
  | c :: rest =>
    match split_on_dash_chars rest with
    | [] => [[c]]
    | h :: t => if c = '-' then [] :: h :: t else (c :: h) :: t

/-- Embeds Python `s.split('-')` on strings. -/
def split_on_dash (s : String) : List String :=
  (split_on_dash_chars s.data).map String.mk

/-- Embeds Python `'-'.join(pieces)`. -/
def join_dash : List String → String
  | [] => ""
  | [s] => s
  | s :: rest => s ++ "-" ++ join_dash rest

/-- Embeds Python `int(piece)` on a split piece: a nonempty digit string
parses to its value, anything else raises (`none` here).  A piece produced
by `split('-')` never contains a dash, so a sign cannot occur; the
remaining `int` forms (surrounding whitespace, digit-group underscores) do
not occur in asset ids. -/
def chars_to_nat? (cs : List Char) : Option Nat :=
  if cs.isEmpty then none
  else if cs.all Char.isDigit then
    some (cs.foldl (fun acc c => 10 * acc + (c.toNat - '0'.toNat)) 0)
  else none

/-- Embeds Python `s.startswith(p)`. -/
def str_starts_with (s p : String) : Bool := p.data.isPrefixOf s.data

/-- Embeds the derived `Center_Code` column (line 95):
`df['Asset ID'].str.split('-').str[0:2].str.join('-')` — the first two
dash-separated components of the asset id, joined with a dash. -/
def center_code_of (asset_id : String) : String :=
  join_dash ((split_on_dash asset_id).take 2)

/-- Embeds `int(asset_id.split('-')[-1])` guarded by `try/except` (lines
476-480): the trailing dash-separated component parsed as a number, `none`
when `int` would raise. -/
def parse_asset_suffix (asset_id : String) : Option Nat :=
  chars_to_nat? ((split_on_dash asset_id).getLastD "").data

/-- One iteration of the allocation loop (lines 475-480): fold the parsed
suffix into the running maximum, skipping (`except: pass`) unparseable
ids. -/
def asset_max_step (max_num : Nat) (asset_id : String) : Nat :=
  match parse_asset_suffix asset_id with
  | some num => max max_num num
  | none => max_num

/-- The allocation loop (lines 474-480): maximum parsed suffix over the
existing ids, starting from 0. -/
def next_asset_number (existing_ids : List String) : Nat :=
  existing_ids.foldl asset_max_step 0

/-- Embeds the f-string `f"{max_num+1:03d}"` padding: zero-pad to width
3. -/
def zero_pad3 (n : Nat) : String :=
  let s := toString n
  if s.length < 3 then String.mk (List.replicate (3 - s.length) '0') ++ s
  else s

/-- Embeds the allocation of a new asset id (lines 472-481): collect the
ids of the rows whose `Center_Code` column equals the chosen center's code,
take the maximum parsed suffix, and emit `code-NNN` with `NNN = max + 1`
zero-padded to three digits. -/
def allocate_asset_id (df : List DeviceRecord) (center_code : String) :
    String :=
  let existing_ids :=
    (df.filter (fun r => center_code_of r.asset_id == center_code)).map
      (fun r => r.asset_id)
  center_code ++ "-" ++ zero_pad3 (next_asset_number existing_ids + 1)

/-- Modelled from the claim's wording, for comparison with
`allocate_asset_id`: scan the records whose `asset_id` *starts with* the
center's code (rather than the rows whose derived `Center_Code` equals
it). -/
def allocate_asset_id_claimed (df : List DeviceRecord) (center_code : String) :
    String :=
  let existing_ids :=
    (df.filter (fun r => str_starts_with r.asset_id center_code)).map
      (fun r => r.asset_id)
  center_code ++ "-" ++ zero_pad3 (next_asset_number existing_ids + 1)

/-- Record whose asset id extends the code "KHL-PHC" as a string prefix but
belongs to a different derived `Center_Code`. -/
def c5Record : DeviceRecord :=
  { sampleRecord with asset_id := "KHL-PHCX-009" }

/-- C5 counterexample: the claim's scan predicate ("asset_id starts with
C's code") disagrees with the code.  `"KHL-PHCX-009"` starts with
`"KHL-PHC"`, so the claim's scan would see suffix 9 and allocate
`KHL-PHC-010`; the code filters on the derived `Center_Code` column
(`"KHL-PHCX"` here), sees no existing id, and allocates `KHL-PHC-001`. -/
theorem allocate_asset_id_scan_claim_false :
    str_starts_with "KHL-PHCX-009" "KHL-PHC" = true ∧
    allocate_asset_id_claimed [c5Record] "KHL-PHC" = "KHL-PHC-010" ∧
    allocate_asset_id [c5Record] "KHL-PHC" = "KHL-PHC-001" ∧
    allocate_asset_id [c5Record] "KHL-PHC" ≠
      allocate_asset_id_claimed [c5Record] "KHL-PHC" := by
  refine ⟨by decide, by decide, by decide, by decide⟩

/-- Helper: the loop step is a running maximum with unparseable suffixes
contributing zero. -/
theorem asset_max_step_eq (m : Nat) (aid : String) :
    asset_max_step m aid = max m ((parse_asset_suffix aid).getD 0) := by
  cases h : parse_asset_suffix aid <;> simp [asset_max_step, h]

/-- Helper: the allocation fold never drops below its accumulator. -/
theorem foldl_asset_le (ids : List String) :
    ∀ init : Nat, init ≤ ids.foldl asset_max_step init := by
  induction ids with
  | nil => intro init; simp
  | cons a t ih =>
    intro init
    calc init ≤ asset_max_step init a := by
          rw [asset_max_step_eq]; exact le_max_left _ _
      _ ≤ t.foldl asset_max_step (asset_max_step init a) := ih _

/-- Helper: every id's parsed suffix (unparseable read as 0) is bounded by
the allocation fold. -/
theorem foldl_asset_mem (ids : List String) :
    ∀ (init : Nat) (aid : String), aid ∈ ids →
      (parse_asset_suffix aid).getD 0 ≤ ids.foldl asset_max_step init := by
  induction ids with
  | nil => intro _ _ h; exact absurd h (List.not_mem_nil _)
  | cons a t ih =>
    intro init aid hmem
    rcases List.mem_cons.mp hmem with h | h
    · subst h
      calc (parse_asset_suffix aid).getD 0 ≤ asset_max_step init aid := by
            rw [asset_max_step_eq]; exact le_max_right _ _
        _ ≤ t.foldl asset_max_step (asset_max_step init aid) :=
            foldl_asset_le t _
    · exact ih _ aid h

/-- Helper: the allocation fold's value is its accumulator or some id's
parsed suffix. -/
theorem foldl_asset_reach (ids : List String) :
    ∀ init : Nat, ids.foldl asset_max_step init = init ∨
      ∃ aid ∈ ids, ids.foldl asset_max_step init =
        (parse_asset_suffix aid).getD 0 := by
  induction ids with
  | nil => intro init; exact Or.inl rfl
  | cons a t ih =>
    intro init
    rcases ih (asset_max_step init a) with h | ⟨aid, hmem, heq⟩
    · rw [List.foldl_cons, h, asset_max_step_eq]
      rcases max_choice init ((parse_asset_suffix a).getD 0) with hm | hm
      · exact Or.inl hm
      · exact Or.inr ⟨a, List.mem_cons_self a t, hm⟩
    · exact Or.inr ⟨aid, List.mem_cons_of_mem a hmem, by
        rw [List.foldl_cons, heq]⟩

/-- Concrete record set with existing ids 001, 002 and 005 for the center
coded "KHL-PHC". -/
def c5df : List DeviceRecord :=
  [{ sampleRecord with asset_id := "KHL-PHC-001" },
   { sampleRecord with asset_id := "KHL-PHC-002" },
   { sampleRecord with asset_id := "KHL-PHC-005" }]

/-- C5 amended: allocation scans the records whose derived `Center_Code`
(first two dash components of the asset id) equals the center's code;
`next_asset_number` is the maximum parsed suffix with unparseable suffixes
read as 0 (never raising — it is total): it bounds every suffix and is 0 or
attained by some id.  Concretely, ids {001, 002, 005} allocate 006, an
empty scan allocates 001, and an unparseable suffix allocates 001. -/
theorem allocate_asset_id_amended :
    (∀ (ids : List String) (aid : String), aid ∈ ids →
      (parse_asset_suffix aid).getD 0 ≤ next_asset_number ids) ∧
    (∀ ids : List String, next_asset_number ids = 0 ∨
      ∃ aid ∈ ids, next_asset_number ids = (parse_asset_suffix aid).getD 0) ∧
    allocate_asset_id c5df "KHL-PHC" = "KHL-PHC-006" ∧
    allocate_asset_id [] "KHL-PHC" = "KHL-PHC-001" ∧
    allocate_asset_id [{ sampleRecord with asset_id := "KHL-PHC-ABC" }]
      "KHL-PHC" = "KHL-PHC-001" := by
  exact ⟨fun ids aid h => foldl_asset_mem ids 0 aid h,
    fun ids => foldl_asset_reach ids 0, by decide, by decide, by decide⟩

/-- Witness for C5's amended theorem at the concrete id set {001, 002,
005}: suffix 5 is bounded by the scanned maximum. -/
theorem allocate_asset_id_amended_witness :
    (parse_asset_suffix "KHL-PHC-005").getD 0 ≤
      next_asset_number ["KHL-PHC-001", "KHL-PHC-002", "KHL-PHC-005"] :=
  allocate_asset_id_amended.1 ["KHL-PHC-001", "KHL-PHC-002", "KHL-PHC-005"]
    "KHL-PHC-005" (by decide)

/-- Embeds the static `CENTERS` table (lines 72-82): `(name, code)` pairs
for the health centers. -/
def CENTERS : List (String × String) :=
  [("الخلاوية", "KHL-PHC"), ("جبل القهر", "GQH-PHC"), ("مقزع", "MQZ-PHC"),
   ("القوام", "QWM-PHC"), ("الجبل الأسود", "BLM-PHC"), ("السادة", "SAD-PHC"),
   ("بيش الشمالي", "NBS-PHC"), ("قرية بيش", "VBS-PHC"), ("المحلة", "MHL-PHC"),
   ("العشة", "ASH-PHC"), ("أبو السداد", "ASD-PHC"), ("العالية", "ALA-PHC"),
   ("السلامة", "SAL-PHC"), ("مسلية", "MSL-PHC"), ("عتود", "ATD-PHC"),
   ("الفطيحة", "FTH-PHC"), ("منشبة", "MNS-PHC"), ("قايم الدش", "QDS-PHC"),
   ("المطعن", "MTN-PHC"), ("الحقو", "HAQ-PHC"), ("الريث", "RYT-PHC"),
   ("الشقيق", "SHQ-PHC"), ("الدرب", "DRB-PHC"), ("بيش الجنوبي", "SBS-PHC"),
   ("عمود", "AMD-PHC")]

/-- Embeds `CENTERS_DICT = {code: name for name, code in CENTERS}` (line
84), the code→name direction used for display.  A Python dict keeps the
last binding per key; keys are distinct here (proved below), so the first
match is the dict lookup. -/
def CENTERS_DICT (code : String) : Option String :=
  (CENTERS.find? (fun p => p.2 == code)).map Prod.fst

/-- Embeds `CENTERS_DICT_REV = {name: code for name, code in CENTERS}`
(line 85), the name→code direction used for asset-id allocation. -/
def CENTERS_DICT_REV (name : String) : Option String :=
  (CENTERS.find? (fun p => p.1 == name)).map Prod.snd

/-- C6 counterexample: the table's codes are not 3-letter codes — the very
first entry's code `"KHL-PHC"` has 7 characters. -/
theorem centers_three_letter_claim_false :
    ("الخلاوية", "KHL-PHC") ∈ CENTERS ∧
    ("KHL-PHC" : String).length = 7 ∧
    ¬ ("KHL-PHC" : String).length = 3 := by
  refine ⟨by decide, by decide, by decide⟩

/-- C6 amended: the table maps exactly 25 distinct center names to 25
distinct 7-character codes of the shape `XXX-PHC` (a 3-letter abbreviation
plus the literal suffix "-PHC"), and the two lookup directions are inverse:
for every entry, code→name and name→code both recover the entry. -/
theorem centers_table_amended :
    CENTERS.length = 25 ∧
    (CENTERS.map Prod.fst).Nodup ∧
    (CENTERS.map Prod.snd).Nodup ∧
    (∀ p ∈ CENTERS, p.2.length = 7 ∧
      (split_on_dash p.2).length = 2 ∧
      ((split_on_dash p.2).getD 0 "").length = 3 ∧
      (split_on_dash p.2).getLastD "" = "PHC") ∧
    (∀ p ∈ CENTERS, CENTERS_DICT p.2 = some p.1 ∧
      CENTERS_DICT_REV p.1 = some p.2) := by
  refine ⟨by decide, by decide, by decide, by decide, by decide⟩

/-- Witness for C6's amended theorem at the first entry: both lookup
directions recover it. -/
theorem centers_table_amended_witness :
    CENTERS_DICT "KHL-PHC" = some "الخلاوية" ∧
    CENTERS_DICT_REV "الخلاوية" = some "KHL-PHC" :=
  centers_table_amended.2.2.2.2 ("الخلاوية", "KHL-PHC") (by decide)

/-- The in-memory session: the record set (`st.session_state.df`) and the
messages surfaced to the user in the current render (`st.error` /
`st.success`). -/
structure SessionState where
  df : List DeviceRecord
  messages : List String
  deriving Repr, DecidableEq

/-- Embeds `save_data(df, file_path)` (lines 148-158).  The spreadsheet
writer `to_excel` is the external collaborator and may fail; the `try`
block catches any failure, reports it with `st.error`, and returns `False`
instead of raising.  Our `DeviceRecord` holds exactly the persisted
columns, so the transient-column drop (lines 151-153) is the identity
here.  Returns the success flag and the error messages emitted. -/
def save_data (df : List DeviceRecord)
    (to_excel : List DeviceRecord → Except String Unit) :
    Bool × List String :=
  match to_excel df with
  | .ok _ => (true, [])
  | .error e => (false, ["خطأ في حفظ البيانات: " ++ e])

/-- Embeds the maintenance-log form submission's DataFrame update (lines
732-744): locate the first row whose `Asset ID` matches (`none` when the
lookup `…iloc[0]` would raise — unreachable through the UI, which only
offers existing ids) and replace it with the logged row. -/
def update_df_maintenance (df : List DeviceRecord) (asset_id : String)
    (maintenance_date : Int)
    (maintenance_type technician maintenance_notes : String)
    (device_status_after : String) (next_maintenance_interval : Int) :
    Option (List DeviceRecord) :=
  match df.findIdx? (fun r => r.asset_id == asset_id) with
  | none => none
  | some idx =>
      some (df.set idx (log_maintenance (df.getD idx default) maintenance_date
        maintenance_type technician maintenance_notes device_status_after
        next_maintenance_interval))

/-- Embeds the whole submission handler (lines 732-750): mutate the session
DataFrame, then attempt the save; on success report success (and rerun), on
failure report the error — in either branch the session keeps the mutated
DataFrame. -/
def maintenance_submit_handler (df : List DeviceRecord) (asset_id : String)
    (maintenance_date : Int)
    (maintenance_type technician maintenance_notes : String)
    (device_status_after : String) (next_maintenance_interval : Int)
    (to_excel : List DeviceRecord → Except String Unit) :
    Option SessionState :=
  match update_df_maintenance df asset_id maintenance_date maintenance_type
      technician maintenance_notes device_status_after
      next_maintenance_interval with
  | none => none
  | some df' =>
      let res := save_data df' to_excel
      if res.1 then some ⟨df', res.2 ++ ["تم تسجيل الصيانة بنجاح!"]⟩
      else some ⟨df', res.2 ++ ["فشل حفظ البيانات"]⟩

/-- C7: when the spreadsheet write fails, the save reports errors and
returns `false` (it is a total function — the exception is caught, not
propagated), and the session retains the edited record set: the handler
ends with the mutated DataFrame `df'`, not the pre-edit one. -/
theorem save_failure_keeps_edit (df df' : List DeviceRecord)
    (asset_id : String) (D I : Int) (mtype tech mnotes dstatus e : String)
    (to_excel : List DeviceRecord → Except String Unit)
    (hupd : update_df_maintenance df asset_id D mtype tech mnotes dstatus I =
      some df')
    (hfail : to_excel df' = .error e) :
    save_data df' to_excel = (false, ["خطأ في حفظ البيانات: " ++ e]) ∧
    maintenance_submit_handler df asset_id D mtype tech mnotes dstatus I
        to_excel =
      some ⟨df', ["خطأ في حفظ البيانات: " ++ e, "فشل حفظ البيانات"]⟩ := by
  have hsave : save_data df' to_excel =
      (false, ["خطأ في حفظ البيانات: " ++ e]) := by
    simp [save_data, hfail]
  refine ⟨hsave, ?_⟩
  simp [maintenance_submit_handler, hupd, hsave]

/-- Witness for C7: a concrete one-record set, a writer that always fails;
the edit (new due date at day 90) survives the failed save. -/
theorem save_failure_keeps_edit_witness :
    maintenance_submit_handler [sampleRecord] "KHL-PHC-001" 0 "صيانة دورية"
        "فني" "" "عامل" 90 (fun _ => .error "disk") =
      some ⟨[log_maintenance sampleRecord 0 "صيانة دورية" "فني" "" "عامل" 90],
            ["خطأ في حفظ البيانات: disk", "فشل حفظ البيانات"]⟩ :=
  (save_failure_keeps_edit [sampleRecord]
    [log_maintenance sampleRecord 0 "صيانة دورية" "فني" "" "عامل" 90]
    "KHL-PHC-001" 0 90 "صيانة دورية" "فني" "" "عامل" "disk"
    (fun _ => .error "disk") (by decide) rfl).2

/-- Embeds the restore-from-backup handler (lines 1068-1076): parse the
uploaded file inside `try`; only a successful parse replaces the session
DataFrame, a failure reports the error and leaves it untouched.  The
uploaded file's parse outcome is the parameter `read_excel`. -/
def restore_from_backup (df : List DeviceRecord)
    (read_excel : Except String (List DeviceRecord)) : SessionState :=
  match read_excel with
  | .ok restored_df => ⟨restored_df, ["تم استعادة البيانات بنجاح!"]⟩
  | .error e => ⟨df, ["خطأ في استعادة البيانات: " ++ e]⟩

/-- C8: restore is all-or-nothing — a failed parse reports an error and
leaves the in-memory record set exactly as it was; a successful parse
replaces it with the restored data. -/
theorem restore_from_backup_all_or_nothing :
    (∀ (df : List DeviceRecord) (e : String),
      (restore_from_backup df (.error e)).df = df ∧
      (restore_from_backup df (.error e)).messages =
        ["خطأ في استعادة البيانات: " ++ e]) ∧
    (∀ df restored_df : List DeviceRecord,
      (restore_from_backup df (.ok restored_df)).df = restored_df) :=
  ⟨fun _ _ => ⟨rfl, rfl⟩, fun _ _ => rfl⟩

/-- C9: logging maintenance on the row with the chosen asset id rewrites
exactly `last_maintenance`, `next_maintenance`, `device_status`,
`maintenance_interval_days` and appends one timestamped line to `notes`;
every other field of that record and every other record of the set are
unchanged.  The interval is form-constrained to `7 ≤ I ≤ 365`. -/
theorem log_maintenance_frame (df : List DeviceRecord) (asset_id : String)
    (D I : Int) (mtype tech mnotes dstatus : String) (idx : Nat)
    (hidx : df.findIdx? (fun r => r.asset_id == asset_id) = some idx)
    (h7 : 7 ≤ I) (h365 : I ≤ 365) :
    (update_df_maintenance df asset_id D mtype tech mnotes dstatus I =
      some (df.set idx
        (log_maintenance (df.getD idx default) D mtype tech mnotes dstatus I))) ∧
    (let r := df.getD idx default
     let r' := log_maintenance r D mtype tech mnotes dstatus I
     r'.last_maintenance = some D ∧
     r'.next_maintenance = some (D + I * nsPerDay) ∧
     r'.device_status = dstatus ∧
     r'.maintenance_interval_days = I ∧
     r'.notes = some (r.notes.getD "" ++ "\n[" ++ toString D ++ "] " ++ mtype
       ++ " - " ++ tech ++ ": " ++ mnotes) ∧
     r'.asset_id = r.asset_id ∧
     r'.department = r.department ∧
     r'.equipment_name = r.equipment_name ∧
     r'.manufacturer = r.manufacturer ∧
     r'.model = r.model ∧
     r'.serial_no = r.serial_no ∧
     r'.installation_date = r.installation_date) ∧
    (∀ j : Nat, j ≠ idx →
      (df.set idx
        (log_maintenance (df.getD idx default) D mtype tech mnotes dstatus
          I)).getD j default = df.getD j default) := by
  refine ⟨by simp [update_df_maintenance, hidx], ?_, ?_⟩
  · exact ⟨rfl, rfl, rfl, rfl, rfl, rfl, rfl, rfl, rfl, rfl, rfl, rfl⟩
  · intro j hj
    simp only [List.getD_eq_getElem?_getD]
    rw [List.getElem?_set_ne (fun h => hj h.symm)]

/-- Witness for C9 on a concrete one-record set with interval 90. -/
theorem log_maintenance_frame_witness :
    update_df_maintenance [sampleRecord] "KHL-PHC-001" 0 "معايرة" "فني" ""
        "عامل" 90 =
      some [log_maintenance sampleRecord 0 "معايرة" "فني" "" "عامل" 90] :=
  (log_maintenance_frame [sampleRecord] "KHL-PHC-001" 0 90 "معايرة" "فني" ""
    "عامل" 0 (by decide) (by decide) (by decide)).1

/-- Embeds the dashboard's "devices needing immediate maintenance"
selection (lines 371-374): rows with a present `Next_Maintenance` whose
`(Next_Maintenance - now).days` is at most 7 — no lower bound, so overdue
rows qualify.  (The view then sorts by due date and displays the first 10;
the selection itself is what the claim is about.)  A `NaT` cell makes the
day comparison false, matching pandas. -/
def urgent_devices_table (df : List DeviceRecord) (now : Int) :
    List DeviceRecord :=
  df.filter (fun r =>
    match r.next_maintenance with
    | some nm => decide (Int.fdiv (nm - now) nsPerDay ≤ 7)
    | none => false)

/-- Embeds the dashboard's urgent-count metric (lines 307-311): rows with a
present `Next_Maintenance`, `(Next_Maintenance - now).days ≤ 7`, and
additionally `Next_Maintenance >= now`. -/
def urgent_count (df : List DeviceRecord) (now : Int) : Nat :=
  (df.filter (fun r =>
    match r.next_maintenance with
    | some nm => decide (Int.fdiv (nm - now) nsPerDay ≤ 7) && decide (now ≤ nm)
    | none => false)).length

/-- Concrete overdue record for C10: due one day before `now = 0`. -/
def c10Record : DeviceRecord :=
  { sampleRecord with next_maintenance := some (-nsPerDay) }

/-- C10: the immediate-maintenance table selects exactly the rows with a
present due date at most 7 days away, with no lower bound — in particular
every overdue row; the urgent-count metric additionally requires
`next_maintenance ≥ now`, so its rows are always among the table's; and on
a concrete record set holding one overdue device the table contains that
device while the urgent count is 0. -/
theorem urgent_table_vs_urgent_count :
    (∀ (df : List DeviceRecord) (now : Int) (r : DeviceRecord),
      r ∈ urgent_devices_table df now ↔
        r ∈ df ∧ ∃ nm : Int, r.next_maintenance = some nm ∧
          Int.fdiv (nm - now) nsPerDay ≤ 7) ∧
    (∀ (df : List DeviceRecord) (now : Int) (r : DeviceRecord) (nm : Int),
      r ∈ df → r.next_maintenance = some nm →
      Int.fdiv (nm - now) nsPerDay < 0 → r ∈ urgent_devices_table df now) ∧
    (∀ (df : List DeviceRecord) (now : Int),
      urgent_count df now ≤ (urgent_devices_table df now).length) ∧
    (c10Record ∈ urgent_devices_table [c10Record] 0 ∧
      urgent_count [c10Record] 0 = 0) := by
  have htab : ∀ (df : List DeviceRecord) (now : Int) (r : DeviceRecord),
      r ∈ urgent_devices_table df now ↔
        r ∈ df ∧ ∃ nm : Int, r.next_maintenance = some nm ∧
          Int.fdiv (nm - now) nsPerDay ≤ 7 := by
    intro df now r
    rw [urgent_devices_table, List.mem_filter]
    constructor
    · rintro ⟨hmem, hcond⟩
      refine ⟨hmem, ?_⟩
      cases hnm : r.next_maintenance with
      | none => rw [hnm] at hcond; exact absurd hcond (by simp)
      | some nm =>
        rw [hnm] at hcond
        exact ⟨nm, rfl, of_decide_eq_true hcond⟩
    · rintro ⟨hmem, nm, hnm, hle⟩
      exact ⟨hmem, by rw [hnm]; exact decide_eq_true hle⟩
  refine ⟨htab, ?_, ?_, ?_, ?_⟩
  · intro df now r nm hmem hnm hlt
    exact (htab df now r).mpr ⟨hmem, nm, hnm, by omega⟩
  · intro df now
    rw [urgent_count, urgent_devices_table]
    apply List.Sublist.length_le
    apply List.monotone_filter_right
    intro r hr
    cases hnm : r.next_maintenance with
    | none => rw [hnm] at hr; exact absurd hr (by simp)
    | some nm =>
      rw [hnm] at hr
      simp only [] at hr ⊢
      exact ((Bool.and_eq_true _ _).mp hr).1
  · exact by decide
  · exact by decide

/-- Witness for C10 at the concrete overdue record: it is selected by the
table via the overdue clause of the theorem. -/
theorem urgent_table_vs_urgent_count_witness :
    c10Record ∈ urgent_devices_table [c10Record] 0 :=
  urgent_table_vs_urgent_count.2.1 [c10Record] 0 c10Record (-nsPerDay)
    (by decide) rfl (by decide)

end MedMaint
